import Mathlib

/-!
Verification of the Feeds Kodi plugin (ebrakke/feeds, plugins/kodi/plugin.video.feeds)
against its natural-language specification.

The embedding below translates the Python sources into Lean:
  - feeds_api.py  : the HTTP client (`FeedsAPI._request`, `get_segments`,
    `get_stream_url`), modelled over abstract HTTP outcomes and a Python-value
    type mirroring what `json.loads` can produce;
  - main.py       : `play_video` (quality negotiation, preparation wait loop,
    stream resolution) and `list_videos` (directory rendering);
  - player.py     : `FeedsPlayer` (monitor tick, progress reporting, watched
    marking, lifecycle handlers).

Remote calls are modelled by their data: the qualities responses seen by the
wait loop are a function from tick to the cached list, the segments response
is kept at the HTTP level (its decoding behaviour is itself under audit), and
positions/durations reported by the host player are inputs.  Python floats are
modelled as exact rationals; Python ints as `Int`.
-/

namespace Feeds

/-- A Python value as produced by `json.loads`: JSON null, booleans, numbers
(modelled as rationals, covering ints and floats), strings, lists and dicts. -/
inductive PyValue : Type where
  | null : PyValue
  | bool (b : Bool) : PyValue
  | num (q : ℚ) : PyValue
  | str (s : String) : PyValue
  | list (l : List PyValue) : PyValue
  | dict (fields : List (String × PyValue)) : PyValue

/-- Python exceptions that can escape the functions under audit.
`feedsAPIError` is the addon's own `FeedsAPIError` (its message is whatever
object was passed to the constructor); `jsonDecodeError` is
`json.JSONDecodeError`; `attributeError` arises from calling `.get` on a
non-dict; `indexError` from out-of-range list indexing. -/
inductive PyError : Type where
  | feedsAPIError (msg : PyValue) : PyError
  | jsonDecodeError : PyError
  | attributeError : PyError
  | indexError : PyError

/-- The body of an HTTP response: either not valid JSON, or a parsed value. -/
inductive RespBody : Type where
  | malformed : RespBody
  | json (v : PyValue) : RespBody

/-- Outcome of one HTTP exchange as seen by `FeedsAPI._request`:
a 2xx response with a body, an `urllib.error.HTTPError` (non-2xx; `estr` is
Python's `str(e)` for it) with its error body, or an `urllib.error.URLError`
(connection failure / timeout) with its reason. -/
inductive HttpOutcome : Type where
  | success (body : RespBody) : HttpOutcome
  | httpError (estr : String) (body : RespBody) : HttpOutcome
  | urlError (reason : String) : HttpOutcome

/-- Python `dict.get(key, default)` over our association-list dicts
(first binding wins, as in a Python dict each key occurs once). -/
def dictGet (fields : List (String × PyValue)) (key : String) (default : PyValue) :
    PyValue :=
  match fields.lookup key with
  | some v => v
  | none => default

/-- `FeedsAPI._request` (feeds_api.py lines 21-40), modelled on the outcome of
the underlying HTTP exchange.  On a 2xx response the body is `json.loads`-ed:
a malformed body raises `json.JSONDecodeError` (NOT converted to
`FeedsAPIError`).  On `HTTPError` the error body is parsed: a malformed error
body gives `FeedsAPIError(str(e))`; a JSON dict gives
`FeedsAPIError(error_data.get("error", str(e)))`; JSON that is not a dict hits
`error_data.get` and raises `AttributeError`.  On `URLError` it raises
`FeedsAPIError("Cannot connect to server: " ++ reason)`. -/
def FeedsAPI.request (outcome : HttpOutcome) : Except PyError PyValue :=
  match outcome with
  | .success .malformed => .error .jsonDecodeError
  | .success (.json v) => .ok v
  | .httpError estr .malformed => .error (.feedsAPIError (.str estr))
  | .httpError estr (.json v) =>
      match v with
      | .dict fields => .error (.feedsAPIError (dictGet fields "error" (.str estr)))
      | _ => .error .attributeError
  | .urlError reason =>
      .error (.feedsAPIError (.str ("Cannot connect to server: " ++ reason)))

/-- `FeedsAPI.get_segments` (feeds_api.py lines 68-74).  The `try` block wraps
the request and the result shaping; only `FeedsAPIError` is caught and turned
into `[]`.  If the request succeeds: a Python list is returned as is, a dict
yields `result.get("segments", [])`, and any other value (e.g. JSON null)
raises `AttributeError` at `.get`.  Exceptions other than `FeedsAPIError`
(notably `json.JSONDecodeError` from a malformed 2xx body) propagate. -/
def FeedsAPI.get_segments (outcome : HttpOutcome) : Except PyError PyValue :=
  match FeedsAPI.request outcome with
  | .ok (.list l) => .ok (.list l)
  | .ok (.dict fields) => .ok (dictGet fields "segments" (.list []))
  | .ok _ => .error .attributeError
  | .error (.feedsAPIError _) => .ok (.list [])
  | .error e => .error e

/-- `FeedsAPI.get_stream_url` (feeds_api.py lines 62-66).  `quality = none`
models Python's default `quality=None`; an empty string is falsy in Python, so
`some ""` also takes the no-query branch.  `base_url` is taken already
normalised (the constructor strips a trailing slash). -/
def FeedsAPI.get_stream_url (base_url video_id : String) (quality : Option String) :
    String :=
  match quality with
  | some q =>
      if q.isEmpty then base_url ++ "/api/stream/" ++ video_id
      else base_url ++ "/api/stream/" ++ video_id ++ "?quality=" ++ q
  | none => base_url ++ "/api/stream/" ++ video_id

/-- The parsed `/api/videos/{id}/qualities` response used by `play_video`:
`available` (ordered ascending by quality, as returned by the server) and
`cached` rendition labels. -/
structure QualitiesData : Type where
  available : List String
  cached : List String

/-- Python `l[-1]`: last element, `IndexError` on an empty list. -/
def pyLast (l : List String) : Except PyError String :=
  match l.getLast? with
  | some x => .ok x
  | none => .error .indexError

/-- The quality-selection options shown in the Ask dialog (main.py lines
209-216): each available label, annotated with " (cached)" when also cached. -/
def askOptions (available cached : List String) : List String :=
  available.map (fun q => if q ∈ cached then q ++ " (cached)" else q)

/-- Quality negotiation in `play_video` (main.py lines 203-232), after the
both-lists-empty guard.  `default_quality` is the mapped setting (0 = Ask,
720/1080 = target, 9999 = Best); `askChoice` is the dialog result used only in
the Ask branch (negative = user cancelled, modelled as `ok none`; otherwise it
indexes `quality_values`, which is the `available` list).  `Best` takes
`available[-1] if available else cached[-1]`; a target takes its label when
present in `available` or `cached`, else falls back to the `Best` rule. -/
def negotiate (default_quality : Nat) (askChoice : Int)
    (available cached : List String) : Except PyError (Option String) :=
  if default_quality = 0 then
    if askChoice < 0 then .ok none
    else
      match available[askChoice.toNat]? with
      | some q => .ok (some q)
      | none => .error .indexError
  else if default_quality = 9999 then
    (if available.isEmpty then pyLast cached else pyLast available).map some
  else
    let target := toString default_quality ++ "p"
    if target ∈ available then .ok (some target)
    else if target ∈ cached then .ok (some target)
    else (if available.isEmpty then pyLast cached else pyLast available).map some

/-- Outcome of the preparation wait loop (main.py lines 244-253):
cancelled at some tick, target observed cached at some tick, or the 120-tick
budget ran out without the target appearing. -/
inductive WaitOutcome : Type where
  | cancelled (tick : Nat) : WaitOutcome
  | becameCached (tick : Nat) : WaitOutcome
  | exhausted : WaitOutcome

/-- One `for i in range(120)` iteration chain of the preparation wait, from
tick `i` with `fuel` iterations left.  Each iteration first checks the
progress dialog's cancel flag (`cancelAt i`) and returns at once when set;
otherwise it updates the dialog (cosmetic), sleeps one tick, polls
`/qualities` (recorded in the returned poll list) and breaks when the selected
quality appears in the polled `cached` list. -/
def waitAux (selected : String) (cancelAt : Nat → Bool) (pollCached : Nat → List String) :
    Nat → Nat → WaitOutcome × List Nat
  | _, 0 => (.exhausted, [])
  | i, fuel + 1 =>
      if cancelAt i then (.cancelled i, [])
      else
        if selected ∈ pollCached i then (.becameCached i, [i])
        else
          let rest := waitAux selected cancelAt pollCached (i + 1) fuel
          (rest.1, i :: rest.2)

/-- The full preparation wait: 120 ticks maximum (main.py line 244),
starting at tick 0.  Returns the outcome and the list of ticks at which a
renditions poll was issued. -/
def waitLoop (selected : String) (cancelAt : Nat → Bool) (pollCached : Nat → List String) :
    WaitOutcome × List Nat :=
  waitAux selected cancelAt pollCached 0 120

/-- Result of one `play_video` attempt (main.py lines 185-271).
`noQualities` is the "No qualities available" dialog; `askCancelled` the
silent return when the user dismisses the quality dialog; `waitCancelled k`
the return from the wait loop's cancel check at tick `k`; `errorDialog` the
outer `except FeedsAPIError` dialog; `uncaught` a Python exception that the
outer handler does not catch; `played url polls` means playback was handed to
the host with stream locator `url` after the recorded renditions polls. -/
inductive PlayResult : Type where
  | noQualities : PlayResult
  | askCancelled : PlayResult
  | waitCancelled (tick : Nat) : PlayResult
  | errorDialog (msg : PyValue) : PlayResult
  | uncaught (e : PyError) : PlayResult
  | played (streamUrl : String) (polls : List Nat) : PlayResult

/-- The segments fetch in `play_video` (main.py lines 257-260):
`segments = []`, replaced by `api.get_segments(video_id)` only when the
SponsorBlock setting is enabled. -/
def fetchSegments (sponsorblock_enabled : Bool) (segmentsResp : HttpOutcome) :
    Except PyError PyValue :=
  if sponsorblock_enabled then FeedsAPI.get_segments segmentsResp
  else .ok (.list [])

/-- `play_video` (main.py lines 185-271).  The initial qualities response is
`q`; the wait loop's cancel flag and per-tick qualities responses are
`cancelAt` / `pollCached`; the segments response is `segmentsResp`.  The
`start_download` call and the polled requests themselves are modelled as
succeeding (their data is the input); `FeedsAPIError` raised anywhere inside
is caught by the outer handler into an error dialog, any other exception
escapes.  Note the code after the wait loop runs for BOTH the became-cached
break and the exhausted-budget fall-through: either way the segments are
fetched, the stream URL is built with `get_stream_url(video_id)` — no quality
argument — and playback is resolved. -/
def play_video (default_quality : Nat) (askChoice : Int) (q : QualitiesData)
    (cancelAt : Nat → Bool) (pollCached : Nat → List String)
    (sponsorblock_enabled : Bool) (segmentsResp : HttpOutcome)
    (base_url video_id : String) : PlayResult :=
  if q.available.isEmpty ∧ q.cached.isEmpty then .noQualities
  else
    match negotiate default_quality askChoice q.available q.cached with
    | .error (.feedsAPIError m) => .errorDialog m
    | .error e => .uncaught e
    | .ok none => .askCancelled
    | .ok (some selected) =>
        let resolveAndPlay : List Nat → PlayResult := fun polls =>
          match fetchSegments sponsorblock_enabled segmentsResp with
          | .error (.feedsAPIError m) => .errorDialog m
          | .error e => .uncaught e
          | .ok _ => .played (FeedsAPI.get_stream_url base_url video_id none) polls
        if selected ∈ q.cached then resolveAndPlay []
        else
          match waitLoop selected cancelAt pollCached with
          | (.cancelled k, _) => .waitCancelled k
          | (_, polls) => resolveAndPlay polls

/-- Python `int(x)` on a float: truncation toward zero. -/
def pyInt (q : ℚ) : Int :=
  if 0 ≤ q then q.floor else q.ceil

/-- A SponsorBlock segment as consumed by the monitor loop: the
`start_time` / `end_time` fields of a segment dict (player.py lines 69-70;
the dict `.get(_, 0)` defaults are absorbed into the parsed record). -/
structure SponsorSegment : Type where
  start_time : ℚ
  end_time : ℚ
deriving DecidableEq

/-- The segment scan of one monitor tick (player.py lines 68-80): walk the
segment list in order and, at the first segment with
`start <= position < end`, seek to its `end` (and stop scanning — the
Python `break`).  Returns the seek target, or nothing when no segment
contains the position. -/
def evaluateSegments (position : ℚ) : List SponsorSegment → Option ℚ
  | [] => none
  | seg :: rest =>
      if seg.start_time ≤ position ∧ position < seg.end_time then some seg.end_time
      else evaluateSegments position rest

/-- `FeedsPlayer` mutable state relevant to the monitor and the lifecycle
handlers: `last_progress_report` (the throttling marker, an int of position
units), `duration` (int seconds, 0 when `getTotalTime` was unavailable) and
the `playing` flag. -/
structure MonitorState : Type where
  last_progress_report : Int
  duration : Int
  playing : Bool
deriving DecidableEq

/-- `FeedsPlayer._report_progress` (player.py lines 48-55): sample the
current position, and issue the API progress call only when `duration > 0`.
Returns the reported integer position, or nothing when no API call is made.
Any exception inside (including an API failure) is swallowed, so the caller
observes nothing besides the call itself. -/
def report_progress (sample : ℚ) (duration : Int) : Option Int :=
  if 0 < duration then some (pyInt sample) else none

/-- Observable effects of one monitor tick (player.py lines 62-98):
the SponsorBlock seek target and its notification, the attempted progress
report (the position handed to the API call, if one was issued), whether
that report reached the server, and whether `mark_watched` was called. -/
structure TickEffects : Type where
  seekTo : Option ℚ
  skipNotice : Bool
  reportAttempt : Option Int
  reportDelivered : Bool
  watchedCall : Bool
deriving DecidableEq

/-- One iteration of `FeedsPlayer._start_monitor`'s while loop (player.py
lines 61-98) in the `Playing` state.  `position` is this tick's
`self.getTime()` sample (the code samples again inside `_report_progress`
within the same tick; both samples are the tick's position);
`reportFails` says whether the API progress call would raise (the exception
is swallowed inside `_report_progress`).  Effects in code order: the segment
scan and seek; the 30-unit-throttled progress report, after which
`last_progress_report` is unconditionally set to the sampled integer
position — whether or not the report succeeded; the 90%-watched check
against `position > duration * 0.9`, its API errors swallowed. -/
def monitorTick (st : MonitorState) (position : ℚ) (sponsorblock_enabled : Bool)
    (segments : List SponsorSegment) (reportFails : Bool) :
    TickEffects × MonitorState :=
  let current_time : Int := pyInt position
  let seekTo : Option ℚ :=
    if sponsorblock_enabled ∧ ¬ segments.isEmpty then evaluateSegments position segments
    else none
  let eligible : Bool := decide (current_time - st.last_progress_report ≥ 30)
  let reportAttempt : Option Int :=
    if eligible then report_progress position st.duration else none
  let marker : Int := if eligible then current_time else st.last_progress_report
  let watched : Bool :=
    if 0 < st.duration then decide (position > (st.duration : ℚ) * (9 / 10)) else false
  (⟨seekTo, seekTo.isSome, reportAttempt, reportAttempt.isSome && !reportFails, watched⟩,
   { st with last_progress_report := marker })

/-- A run of consecutive monitor ticks: each input is one tick's position
sample together with whether the progress API call would fail on that tick.
Returns the per-tick effects in order and the final state. -/
def runTicks (st : MonitorState) (sponsorblock_enabled : Bool)
    (segments : List SponsorSegment) :
    List (ℚ × Bool) → List TickEffects × MonitorState
  | [] => ([], st)
  | (pos, fails) :: rest =>
      let step := monitorTick st pos sponsorblock_enabled segments fails
      let cont := runTicks step.2 sponsorblock_enabled segments rest
      (step.1 :: cont.1, cont.2)

/-- Observable effects of a lifecycle handler: the progress report issued
(if any) and whether `mark_watched` was called. -/
structure HandlerEffects : Type where
  report : Option Int
  watchedCall : Bool
deriving DecidableEq

/-- `FeedsPlayer.onPlayBackPaused` (player.py lines 34-36): report progress
immediately — no throttling check, no marker update, no watched call. -/
def onPlayBackPaused (sample : ℚ) (st : MonitorState) :
    HandlerEffects × MonitorState :=
  (⟨report_progress sample st.duration, false⟩, st)

/-- `FeedsPlayer.onPlayBackStopped` (player.py lines 29-32): clear `playing`
(which ends the monitor loop) and report progress once; no watched call. -/
def onPlayBackStopped (sample : ℚ) (st : MonitorState) :
    HandlerEffects × MonitorState :=
  (⟨report_progress sample st.duration, false⟩, { st with playing := false })

/-- `FeedsPlayer.onPlayBackEnded` (player.py lines 38-46): clear `playing`
and call `mark_watched` exactly when `duration > 0` (errors swallowed);
no progress report. -/
def onPlayBackEnded (st : MonitorState) : HandlerEffects × MonitorState :=
  (⟨none, decide (0 < st.duration)⟩, { st with playing := false })

/-- A video record from a feed-videos response, restricted to the fields
`list_videos` reads.  `is_short` is the truthiness of the `is_short` field
(a missing field reads as falsy via `.get`). -/
structure Video : Type where
  id : String
  title : String
  channel_name : String
  thumbnail : String
  duration : Int
  published : String
  is_short : Bool
deriving DecidableEq

/-- The target of a directory item's plugin URL (the `action` and parameters
`build_plugin_url` encodes into the URL query). -/
inductive PluginTarget : Type where
  | listVideosPage (feed_id : Int) (offset : Int) : PluginTarget
  | historyPage (offset : Int) : PluginTarget
  | play (video_id : String) : PluginTarget
deriving DecidableEq

/-- A directory entry as added by `xbmcplugin.addDirectoryItem`: label,
plugin URL target, the `IsPlayable` property and the `isFolder` flag. -/
structure DirItem : Type where
  label : String
  target : PluginTarget
  isPlayable : Bool
  isFolder : Bool
deriving DecidableEq

/-- The directory item `list_videos` builds for one (non-short) video
(main.py lines 104-127): a playable, non-folder item whose URL routes to
`play` with the video's id. -/
def itemOfVideo (v : Video) : DirItem :=
  ⟨v.title, .play v.id, true, false⟩

/-- The per-video loop of `list_videos` (main.py lines 99-127): videos whose
`is_short` field is truthy are skipped (`continue`); every other video yields
exactly one directory item. -/
def videoItems : List Video → List DirItem
  | [] => []
  | v :: rest =>
      if v.is_short then videoItems rest
      else itemOfVideo v :: videoItems rest

/-- The full directory `list_videos` renders (main.py lines 99-135): the
video items followed by a `[Next Page]` folder item when
`offset + limit < total`. -/
def list_videos_dir (videos : List Video) (feed_id offset limit total : Int) :
    List DirItem :=
  videoItems videos ++
    (if offset + limit < total then
      [⟨"[Next Page]", .listVideosPage feed_id (offset + limit), false, true⟩]
     else [])

/-! ## Helper lemmas -/

/-- The segment scan, expressed through `List.find?`: it returns the
`end_time` of the first segment in list order containing the position. -/
theorem evaluateSegments_eq_find (pos : ℚ) (segs : List SponsorSegment) :
    evaluateSegments pos segs =
      (segs.find? fun s => decide (s.start_time ≤ pos) && decide (pos < s.end_time)).map
        SponsorSegment.end_time := by
  induction segs with
  | nil => rfl
  | cons seg rest ih =>
      unfold evaluateSegments
      by_cases h : seg.start_time ≤ pos ∧ pos < seg.end_time
      · rw [if_pos h, List.find?_cons_of_pos _ (by simp [h.1, h.2])]
        rfl
      · rw [if_neg h, List.find?_cons_of_neg, ih]
        simp only [Bool.and_eq_true, decide_eq_true_eq]
        exact h

/-- A successful segment scan always targets a time strictly after the
current position (the matched segment satisfies `position < end`). -/
theorem evaluateSegments_lt (pos : ℚ) (segs : List SponsorSegment) (e : ℚ)
    (h : evaluateSegments pos segs = some e) : pos < e := by
  induction segs with
  | nil => exact absurd h (by simp [evaluateSegments])
  | cons seg rest ih =>
      unfold evaluateSegments at h
      by_cases hm : seg.start_time ≤ pos ∧ pos < seg.end_time
      · rw [if_pos hm] at h
        cases h
        exact hm.2
      · rw [if_neg hm] at h
        exact ih h

/-- When the position lies strictly before every segment, the scan finds
nothing. -/
theorem evaluateSegments_before (pos : ℚ) (segs : List SponsorSegment)
    (h : ∀ s ∈ segs, pos < s.start_time) : evaluateSegments pos segs = none := by
  induction segs with
  | nil => rfl
  | cons seg rest ih =>
      unfold evaluateSegments
      rw [if_neg, ih fun s hs => h s (List.mem_cons_of_mem _ hs)]
      intro hm
      exact absurd (h seg (List.mem_cons_self _ _)) (not_lt.mpr hm.1)

/-- The rendered video items are exactly the response videos with shorts
filtered out, each mapped to its directory item. -/
theorem videoItems_eq_filter (videos : List Video) :
    videoItems videos = (videos.filter fun v => !v.is_short).map itemOfVideo := by
  induction videos with
  | nil => rfl
  | cons v rest ih =>
      unfold videoItems
      by_cases h : v.is_short
      · simp [h, ih]
      · simp [h, ih, List.filter_cons]

/-! ## Claims -/

/-- C2: on one tick the segment-skip evaluation seeks to the end of the
first segment in list order whose half-open interval satisfies
`start ≤ position < end`; at most one skip is performed per tick; nothing
happens when the position equals a segment's end (closed-open boundary: such
a segment never matches, so a lone segment with `end = position` yields no
skip and any returned target lies strictly after the position) or when the
position lies before the start of every segment. -/
theorem C2_theorem :
    (∀ (st : MonitorState) (pos : ℚ) (segs : List SponsorSegment) (f : Bool),
      (monitorTick st pos true segs f).1.seekTo = evaluateSegments pos segs) ∧
    (∀ (pos : ℚ) (segs : List SponsorSegment),
      evaluateSegments pos segs =
        (segs.find? fun s => decide (s.start_time ≤ pos) && decide (pos < s.end_time)).map
          SponsorSegment.end_time) ∧
    (∀ (st : MonitorState) (pos : ℚ) (en : Bool) (segs : List SponsorSegment) (f : Bool),
      ((monitorTick st pos en segs f).1.seekTo).toList.length ≤ 1) ∧
    (∀ (pos : ℚ) (segs : List SponsorSegment),
      (∀ s ∈ segs, pos < s.start_time) → evaluateSegments pos segs = none) ∧
    (∀ s : SponsorSegment, evaluateSegments s.end_time [s] = none) ∧
    (∀ (pos : ℚ) (segs : List SponsorSegment) (e : ℚ),
      evaluateSegments pos segs = some e → pos < e) := by
  refine ⟨?_, evaluateSegments_eq_find, ?_, evaluateSegments_before, ?_, evaluateSegments_lt⟩
  · intro st pos segs f
    cases segs with
    | nil => simp [monitorTick, evaluateSegments]
    | cons s rest => simp [monitorTick]
  · intro st pos en segs f
    cases h : (monitorTick st pos en segs f).1.seekTo <;> simp [h]
  · intro s
    unfold evaluateSegments evaluateSegments
    rw [if_neg]
    intro hm
    exact absurd hm.2 (lt_irrefl _)

/-- C2 witness: concrete evaluations through `C2_theorem` — a position
inside the sole segment `[10, 20)` is skipped to `20`, and the position `20`
(the segment's end) is not skipped. -/
theorem C2_witness :
    (monitorTick ⟨0, 100, true⟩ 11 true [⟨10, 20⟩] false).1.seekTo =
      evaluateSegments 11 [⟨10, 20⟩] ∧
    evaluateSegments 20 [⟨10, 20⟩] = none ∧
    evaluateSegments 11 [⟨10, 20⟩] = some 20 := by
  refine ⟨C2_theorem.1 ⟨0, 100, true⟩ 11 [⟨10, 20⟩] false,
          C2_theorem.2.2.2.2.1 ⟨10, 20⟩, ?_⟩
  rw [C2_theorem.2.1 11 [⟨10, 20⟩]]
  norm_num [List.find?]

/-- C5: a tick of the sampling loop calls `mark_watched` exactly when
`durationTotal > 0` and the sampled position exceeds `0.9 * durationTotal`;
with `durationTotal = 0` no watched-mark is ever issued, neither by a loop
tick nor by the natural end-of-stream handler. -/
theorem C5_theorem :
    (∀ (st : MonitorState) (pos : ℚ) (en : Bool) (segs : List SponsorSegment) (f : Bool),
      (monitorTick st pos en segs f).1.watchedCall = true ↔
        0 < st.duration ∧ (st.duration : ℚ) * (9 / 10) < pos) ∧
    (∀ (st : MonitorState) (pos : ℚ) (en : Bool) (segs : List SponsorSegment) (f : Bool),
      st.duration = 0 → (monitorTick st pos en segs f).1.watchedCall = false) ∧
    (∀ st : MonitorState, st.duration = 0 → (onPlayBackEnded st).1.watchedCall = false) := by
  refine ⟨?_, ?_, ?_⟩
  · intro st pos en segs f
    by_cases h : 0 < st.duration <;> simp [monitorTick, h]
  · intro st pos en segs f h
    simp [monitorTick, h]
  · intro st h
    simp [onPlayBackEnded, h]

/-- C5 witness: through `C5_theorem`, a 100-unit session at position 95
marks watched, and a zero-duration session marks nothing on a tick at
position 95 nor on natural end. -/
theorem C5_witness :
    (monitorTick ⟨0, 100, true⟩ 95 false [] false).1.watchedCall = true ∧
    (monitorTick ⟨0, 0, true⟩ 95 false [] false).1.watchedCall = false ∧
    (onPlayBackEnded ⟨0, 0, false⟩).1.watchedCall = false :=
  ⟨(C5_theorem.1 ⟨0, 100, true⟩ 95 false [] false).mpr (by norm_num),
   C5_theorem.2.1 ⟨0, 0, true⟩ 95 false [] false rfl,
   C5_theorem.2.2 ⟨0, 0, false⟩ rfl⟩

/-- C10: `list_videos` adds no directory item for a video whose `is_short`
field is truthy, and every other video in the response yields exactly one
playable, non-folder item: the rendered video list is the response list with
shorts filtered out. -/
theorem C10_theorem :
    (∀ videos : List Video,
      videoItems videos = (videos.filter fun v => !v.is_short).map itemOfVideo) ∧
    (∀ v : Video, v.is_short = true → videoItems [v] = []) ∧
    (∀ v : Video, v.is_short = false →
      videoItems [v] = [itemOfVideo v] ∧ (itemOfVideo v).isPlayable = true ∧
        (itemOfVideo v).isFolder = false) := by
  refine ⟨videoItems_eq_filter, ?_, ?_⟩
  · intro v h
    simp [videoItems, h]
  · intro v h
    exact ⟨by simp [videoItems, h], rfl, rfl⟩

/-- C10 witness: through `C10_theorem`, a short video yields no item and a
regular one yields its single playable item. -/
theorem C10_witness :
    videoItems [⟨"a", "Short", "ch", "", 10, "", true⟩] = [] ∧
    videoItems [⟨"b", "Full", "ch", "", 10, "", false⟩] =
      [itemOfVideo ⟨"b", "Full", "ch", "", 10, "", false⟩] :=
  ⟨C10_theorem.2.1 _ rfl, (C10_theorem.2.2 ⟨"b", "Full", "ch", "", 10, "", false⟩ rfl).1⟩

/-- C7: the claim that `get_segments` never raises and degrades every
failure to `[]` is contradicted by the code at a 2xx response whose body is
not valid JSON: `_request` raises `json.JSONDecodeError`, which the
`except FeedsAPIError` clause does not catch, so it escapes to the caller.
A 2xx body of JSON `null` likewise escapes as `AttributeError` at
`result.get`.  The intended degradation does work for `FeedsAPIError`
failures (HTTP error responses and connection failures). -/
theorem C7_theorem :
    FeedsAPI.get_segments (.success .malformed) = .error .jsonDecodeError ∧
    FeedsAPI.get_segments (.success (.json .null)) = .error .attributeError ∧
    FeedsAPI.get_segments (.httpError "HTTP Error 500" .malformed) = .ok (.list []) ∧
    FeedsAPI.get_segments (.urlError "timed out") = .ok (.list []) :=
  ⟨rfl, rfl, rfl, rfl⟩

/-- C4: the claim that the last-reported marker advances only on a
successful report is contradicted by the code: starting from marker 0 in a
100-unit session, a tick at position 30 whose report call fails
(`reportDelivered = false`) still advances the marker to 30, and the next
tick at position 35 issues no retry (`reportAttempt = none`, since
`35 - 30 < 30`) — the failed report's progress is dropped, not retried. -/
theorem C4_theorem :
    runTicks ⟨0, 100, true⟩ false [] [(30, true), (35, false)] =
      ([⟨none, false, some 30, false, false⟩, ⟨none, false, none, false, false⟩],
       ⟨30, 100, true⟩) := by
  norm_num [runTicks, monitorTick, report_progress, pyInt, Rat.floor]

/-- C6 counterexample: the claim that entering Paused at position P always
issues one progress report fails for a session whose duration is unknown
(`durationTotal = 0`, the `getTotalTime` fallback): `_report_progress`
guards the API call with `duration > 0`, so pausing at position 50 issues no
report, and a stop in such a session issues no final report either. -/
theorem C6_counterexample :
    (onPlayBackPaused 50 ⟨0, 0, true⟩).1.report = none ∧
    (onPlayBackStopped 50 ⟨0, 0, true⟩).1.report = none := ⟨rfl, rfl⟩

/-- C6: provided `durationTotal > 0`, entering Paused at position P issues
one immediate progress report at (the integer part of) P regardless of the
delta since the last report — the handler never consults the throttling
marker — and a user-initiated stop issues one final progress report and ends
the monitor (`playing` cleared); no watched-mark is issued on stop in any
session.  When `durationTotal = 0` neither handler issues a report. -/
theorem C6_theorem :
    (∀ (sample : ℚ) (st : MonitorState), 0 < st.duration →
      (onPlayBackPaused sample st).1.report = some (pyInt sample) ∧
      (onPlayBackStopped sample st).1.report = some (pyInt sample)) ∧
    (∀ (sample : ℚ) (st : MonitorState),
      (onPlayBackStopped sample st).1.watchedCall = false ∧
      (onPlayBackStopped sample st).2.playing = false ∧
      (onPlayBackPaused sample st).1.watchedCall = false) := by
  constructor
  · intro sample st h
    constructor <;> simp [onPlayBackPaused, onPlayBackStopped, report_progress, h]
  · intro sample st
    exact ⟨rfl, rfl, rfl⟩

/-- C6 witness: through `C6_theorem`, pausing a 100-unit session at
position 47 reports 47 whatever the marker says, and stopping reports once
with no watched-mark. -/
theorem C6_witness :
    (onPlayBackPaused 47 ⟨999, 100, true⟩).1.report = some 47 ∧
    (onPlayBackStopped 47 ⟨999, 100, true⟩).1.report = some 47 ∧
    (onPlayBackStopped 47 ⟨999, 100, true⟩).1.watchedCall = false := by
  have h1 := C6_theorem.1 47 ⟨999, 100, true⟩ (by norm_num)
  have h2 := C6_theorem.2 47 ⟨999, 100, true⟩
  refine ⟨by rw [h1.1]; norm_num [pyInt, Rat.floor],
          by rw [h1.2]; norm_num [pyInt, Rat.floor], h2.1⟩

/-- C3: with the Best preference, negotiation picks the last (highest-
ranked) element of `available` whenever `available` is non-empty — an
element of `available`, never drawn from `cached` — and falls back to the
last element of `cached` when `available` is empty; when both lists are
empty the play attempt fails with the no-renditions dialog. -/
theorem C3_theorem :
    (∀ (available cached : List String) (ch : Int), available ≠ [] →
      ∃ q, available.getLast? = some q ∧
        negotiate 9999 ch available cached = .ok (some q) ∧ q ∈ available) ∧
    (∀ (cached : List String) (ch : Int), cached ≠ [] →
      ∃ q, cached.getLast? = some q ∧ negotiate 9999 ch [] cached = .ok (some q)) ∧
    (∀ (dq : Nat) (ch : Int) (cancelAt : Nat → Bool) (pollCached : Nat → List String)
        (en : Bool) (segResp : HttpOutcome) (base vid : String),
      play_video dq ch ⟨[], []⟩ cancelAt pollCached en segResp base vid = .noQualities) := by
  refine ⟨?_, ?_, ?_⟩
  · intro available cached ch h
    refine ⟨available.getLast h, List.getLast?_eq_getLast _ h, ?_, List.getLast_mem h⟩
    simp only [negotiate, if_neg (by norm_num : ¬(9999 = 0)), if_pos rfl,
      List.isEmpty_eq_true, if_neg h, pyLast, List.getLast?_eq_getLast _ h]
    rfl
  · intro cached ch h
    refine ⟨cached.getLast h, List.getLast?_eq_getLast _ h, ?_⟩
    simp only [negotiate, if_neg (by norm_num : ¬(9999 = 0)), if_pos rfl,
      List.isEmpty_eq_true, if_pos rfl, pyLast, List.getLast?_eq_getLast _ h]
    rfl
  · intro dq ch cancelAt pollCached en segResp base vid
    rfl

/-- C3 witness: through `C3_theorem`, Best picks "1080p" from an ascending
`available` list ignoring `cached`, picks the last cached rendition when
nothing is available, and an empty/empty response yields the no-renditions
failure. -/
theorem C3_witness :
    negotiate 9999 0 ["480p", "720p", "1080p"] ["360p"] = .ok (some "1080p") ∧
    negotiate 9999 0 [] ["360p", "480p"] = .ok (some "480p") ∧
    play_video 9999 0 ⟨[], []⟩ (fun _ => false) (fun _ => []) false
      (.success (.json (.list []))) "http://srv" "v1" = .noQualities := by
  obtain ⟨q1, hq1, hn1, _⟩ := C3_theorem.1 ["480p", "720p", "1080p"] ["360p"] 0 (by decide)
  obtain ⟨q2, hq2, hn2⟩ := C3_theorem.2.1 ["360p", "480p"] 0 (by decide)
  refine ⟨?_, ?_, C3_theorem.2.2 9999 0 (fun _ => false) (fun _ => []) false
    (.success (.json (.list []))) "http://srv" "v1"⟩
  · rw [hn1]
    cases hq1
    rfl
  · rw [hn2]
    cases hq2
    rfl

/-- Never cancelled and never observing the target cached, the wait chain
from tick `i` with `fuel` iterations left exhausts its budget, polling at
every tick of its window. -/
theorem waitAux_exhausted (sel : String) (cancelAt : Nat → Bool)
    (pollCached : Nat → List String) (hc : ∀ i, cancelAt i = false)
    (hp : ∀ i, sel ∉ pollCached i) :
    ∀ (fuel i : Nat),
      waitAux sel cancelAt pollCached i fuel = (.exhausted, List.range' i fuel) := by
  intro fuel
  induction fuel with
  | zero => intro i; rfl
  | succ n ih =>
      intro i
      simp only [waitAux, hc i, hp i, ih (i + 1), Bool.false_eq_true, if_false, List.range']

/-- With the cancel flag first observed at tick `k` inside the window and no
earlier poll observing the target, the wait chain aborts at tick `k` having
polled exactly at the ticks before `k`. -/
theorem waitAux_cancelled (sel : String) (cancelAt : Nat → Bool)
    (pollCached : Nat → List String) (k : Nat) (hk : cancelAt k = true) :
    ∀ (fuel i : Nat), i ≤ k → k < i + fuel →
      (∀ j, i ≤ j → j < k → cancelAt j = false) →
      (∀ j, i ≤ j → j < k → sel ∉ pollCached j) →
      waitAux sel cancelAt pollCached i fuel = (.cancelled k, List.range' i (k - i)) := by
  intro fuel
  induction fuel with
  | zero => intro i h1 h2 _ _; omega
  | succ n ih =>
      intro i h1 h2 hcb hpb
      by_cases hi : i = k
      · subst hi
        simp only [waitAux, hk, if_true, Nat.sub_self, List.range']
      · have hik : i < k := lt_of_le_of_ne h1 hi
        have h3 : k - i = (k - (i + 1)) + 1 := by omega
        simp only [waitAux, hcb i le_rfl hik, hpb i le_rfl hik, Bool.false_eq_true, if_false,
          ih (i + 1) (by omega) (by omega) (fun j hj hjk => hcb j (by omega) hjk)
            (fun j hj hjk => hpb j (by omega) hjk), h3, List.range']

/-- A play attempt whose selected rendition is not cached and whose wait
loop exhausts its budget proceeds to playback with the quality-less stream
locator and the recorded polls. -/
theorem play_video_wait_exhausted (dq : Nat) (ch : Int) (avail cached : List String)
    (cancelAt : Nat → Bool) (pollCached : Nat → List String) (en : Bool)
    (segResp : HttpOutcome) (base vid : String) (sel : String) (polls : List Nat)
    (v : PyValue) (hno : ¬(avail.isEmpty ∧ cached.isEmpty))
    (hneg : negotiate dq ch avail cached = .ok (some sel)) (hsel : sel ∉ cached)
    (hwait : waitLoop sel cancelAt pollCached = (.exhausted, polls))
    (hseg : fetchSegments en segResp = .ok v) :
    play_video dq ch ⟨avail, cached⟩ cancelAt pollCached en segResp base vid =
      .played (FeedsAPI.get_stream_url base vid none) polls := by
  unfold play_video
  rw [if_neg hno, hneg]
  dsimp only
  rw [if_neg hsel, hwait, hseg]

/-- A play attempt whose wait loop observes the cancel flag at tick `k`
returns the cancelled result. -/
theorem play_video_wait_cancelled (dq : Nat) (ch : Int) (avail cached : List String)
    (cancelAt : Nat → Bool) (pollCached : Nat → List String) (en : Bool)
    (segResp : HttpOutcome) (base vid : String) (sel : String) (k : Nat)
    (polls : List Nat) (hno : ¬(avail.isEmpty ∧ cached.isEmpty))
    (hneg : negotiate dq ch avail cached = .ok (some sel)) (hsel : sel ∉ cached)
    (hwait : waitLoop sel cancelAt pollCached = (.cancelled k, polls)) :
    play_video dq ch ⟨avail, cached⟩ cancelAt pollCached en segResp base vid =
      .waitCancelled k := by
  unfold play_video
  rw [if_neg hno, hneg]
  dsimp only
  rw [if_neg hsel, hwait]

/-- Every play attempt that reaches playback hands over the locator built by
`get_stream_url(video_id)` with no quality argument. -/
theorem play_video_played_url (dq : Nat) (ch : Int) (q : QualitiesData)
    (cancelAt : Nat → Bool) (pollCached : Nat → List String) (en : Bool)
    (segResp : HttpOutcome) (base vid : String) (url : String) (polls : List Nat)
    (h : play_video dq ch q cancelAt pollCached en segResp base vid =
      .played url polls) :
    url = FeedsAPI.get_stream_url base vid none := by
  unfold play_video at h
  dsimp only at h
  repeat' split at h
  all_goals simp_all

/-- C1 counterexample: a concrete attempt (Best preference, nothing cached,
no poll ever observing the rendition, never cancelled) in which the claimed
`PreparationTimeout` failure does not occur: the wait exhausts its full
120-tick budget and `play_video` nevertheless starts playback, resolving the
stream locator. -/
theorem C1_counterexample :
    play_video 9999 0 ⟨["720p", "1080p"], []⟩ (fun _ => false) (fun _ => [])
        false (.success (.json (.list []))) "http://srv" "v1" =
      .played "http://srv/api/stream/v1" (List.range 120) ∧
    (List.range 120).length = 120 := by
  have hwait : waitLoop "1080p" (fun _ => false) (fun _ => []) =
      (.exhausted, List.range 120) := by
    unfold waitLoop
    rw [waitAux_exhausted "1080p" _ _ (fun _ => rfl) (fun i => by simp) 120 0,
      List.range_eq_range']
  refine ⟨?_, by simp⟩
  have h := play_video_wait_exhausted 9999 0 ["720p", "1080p"] [] (fun _ => false)
    (fun _ => []) false (.success (.json (.list []))) "http://srv" "v1" "1080p"
    (List.range 120) (.list []) (by decide) rfl (by simp) hwait rfl
  rw [h]
  rfl

/-- C1 (amended): for every play attempt whose chosen rendition is not
cached at negotiation time, with no poll during the wait observing it in the
cached set and no cancellation, the preparation wait terminates after
exactly 120 ticks (polling at ticks 0..119) — but no `PreparationTimeout` is
reported: the code then proceeds to start playback with the resolved stream
locator despite the exhausted budget. -/
theorem C1_theorem (dq : Nat) (ch : Int) (avail cached : List String)
    (cancelAt : Nat → Bool) (pollCached : Nat → List String) (en : Bool)
    (segResp : HttpOutcome) (base vid : String) (sel : String) (v : PyValue)
    (hno : ¬(avail.isEmpty ∧ cached.isEmpty))
    (hneg : negotiate dq ch avail cached = .ok (some sel)) (hsel : sel ∉ cached)
    (hc : ∀ i, cancelAt i = false) (hp : ∀ i, sel ∉ pollCached i)
    (hseg : fetchSegments en segResp = .ok v) :
    waitLoop sel cancelAt pollCached = (.exhausted, List.range 120) ∧
    (List.range 120).length = 120 ∧
    play_video dq ch ⟨avail, cached⟩ cancelAt pollCached en segResp base vid =
      .played (FeedsAPI.get_stream_url base vid none) (List.range 120) := by
  have hwait : waitLoop sel cancelAt pollCached = (.exhausted, List.range 120) := by
    unfold waitLoop
    rw [waitAux_exhausted sel _ _ hc hp 120 0, List.range_eq_range']
  exact ⟨hwait, by simp,
    play_video_wait_exhausted dq ch avail cached cancelAt pollCached en segResp
      base vid sel (List.range 120) v hno hneg hsel hwait hseg⟩

/-- C1 witness: `C1_theorem` applied to a concrete attempt (Best, available
`["480p", "720p"]`, nothing ever cached, never cancelled). -/
theorem C1_witness :
    waitLoop "720p" (fun _ => false) (fun _ => []) = (.exhausted, List.range 120) ∧
    (List.range 120).length = 120 ∧
    play_video 9999 0 ⟨["480p", "720p"], []⟩ (fun _ => false) (fun _ => [])
        false (.success (.json (.list []))) "http://base" "vid9" =
      .played (FeedsAPI.get_stream_url "http://base" "vid9" none) (List.range 120) :=
  C1_theorem 9999 0 ["480p", "720p"] [] (fun _ => false) (fun _ => []) false
    (.success (.json (.list []))) "http://base" "vid9" "720p" (.list [])
    (by decide) rfl (by simp) (fun _ => rfl) (fun i => by simp) rfl

/-- C8: if the cancel flag is first observed at tick `k` of the preparation
wait (no earlier tick cancelled, no earlier poll observed the target
cached), the wait aborts at tick `k`: the polls issued are exactly those of
ticks `0..k-1` — none at tick `k` or later — and the whole play attempt
returns the cancelled result, with no segments fetch, stream resolution or
playback. -/
theorem C8_theorem (k : Nat) (dq : Nat) (ch : Int) (avail cached : List String)
    (cancelAt : Nat → Bool) (pollCached : Nat → List String) (en : Bool)
    (segResp : HttpOutcome) (base vid : String) (sel : String)
    (hk : cancelAt k = true) (hbefore : ∀ j, j < k → cancelAt j = false)
    (hpoll : ∀ j, j < k → sel ∉ pollCached j) (hk120 : k < 120)
    (hno : ¬(avail.isEmpty ∧ cached.isEmpty))
    (hneg : negotiate dq ch avail cached = .ok (some sel)) (hsel : sel ∉ cached) :
    waitLoop sel cancelAt pollCached = (.cancelled k, List.range k) ∧
    (∀ t ∈ (waitLoop sel cancelAt pollCached).2, t < k) ∧
    play_video dq ch ⟨avail, cached⟩ cancelAt pollCached en segResp base vid =
      .waitCancelled k := by
  have hwait : waitLoop sel cancelAt pollCached = (.cancelled k, List.range k) := by
    unfold waitLoop
    rw [waitAux_cancelled sel cancelAt pollCached k hk 120 0 (Nat.zero_le k)
        (by omega) (fun j _ hjk => hbefore j hjk) (fun j _ hjk => hpoll j hjk),
      Nat.sub_zero, List.range_eq_range']
  refine ⟨hwait, ?_, play_video_wait_cancelled dq ch avail cached cancelAt pollCached
    en segResp base vid sel k (List.range k) hno hneg hsel hwait⟩
  rw [hwait]
  intro t ht
  exact List.mem_range.mp ht

/-- C8 witness: `C8_theorem` applied to a concrete attempt cancelled at tick
3: polls happen exactly at ticks 0, 1, 2 and the attempt ends cancelled. -/
theorem C8_witness :
    waitLoop "1080p" (fun i => decide (i = 3)) (fun _ => []) =
      (.cancelled 3, List.range 3) ∧
    (∀ t ∈ (waitLoop "1080p" (fun i => decide (i = 3)) (fun _ => [])).2, t < 3) ∧
    play_video 9999 0 ⟨["720p", "1080p"], []⟩ (fun i => decide (i = 3)) (fun _ => [])
        false (.success (.json (.list []))) "http://srv" "v1" = .waitCancelled 3 :=
  C8_theorem 3 9999 0 ["720p", "1080p"] [] (fun i => decide (i = 3)) (fun _ => [])
    false (.success (.json (.list []))) "http://srv" "v1" "1080p" (by decide)
    (fun j hj => by simp; omega) (fun j _ => by simp) (by norm_num) (by decide) rfl
    (by simp)

/-- C9 counterexample: a concrete attempt that reaches playback (Best picks
"1080p", which is cached) where the locator handed to the host is
`/api/stream/v1` with NO quality parameter — not the claimed
`/api/stream/{id}?quality=` URL carrying the chosen rendition. -/
theorem C9_counterexample :
    negotiate 9999 0 ["720p", "1080p"] ["1080p"] = .ok (some "1080p") ∧
    play_video 9999 0 ⟨["720p", "1080p"], ["1080p"]⟩ (fun _ => false) (fun _ => [])
        false (.success (.json (.list []))) "http://srv" "v1" =
      .played "http://srv/api/stream/v1" [] ∧
    "http://srv/api/stream/v1" ≠
      FeedsAPI.get_stream_url "http://srv" "v1" (some "1080p") := by
  refine ⟨rfl, rfl, ?_⟩
  have hq : FeedsAPI.get_stream_url "http://srv" "v1" (some "1080p") =
      "http://srv/api/stream/v1?quality=1080p" := rfl
  rw [hq]
  simp

/-- C9 (amended): every play attempt that reaches playback hands the host
the locator built by `get_stream_url(video_id)` with no quality argument,
i.e. `{base}/api/stream/{id}` with no `?quality=` query — the negotiated
rendition is not encoded in the locator. -/
theorem C9_theorem (dq : Nat) (ch : Int) (q : QualitiesData)
    (cancelAt : Nat → Bool) (pollCached : Nat → List String) (en : Bool)
    (segResp : HttpOutcome) (base vid : String) (url : String) (polls : List Nat)
    (h : play_video dq ch q cancelAt pollCached en segResp base vid =
      .played url polls) :
    url = FeedsAPI.get_stream_url base vid none ∧
    FeedsAPI.get_stream_url base vid none = base ++ "/api/stream/" ++ vid :=
  ⟨play_video_played_url dq ch q cancelAt pollCached en segResp base vid url polls h,
   rfl⟩

/-- C9 witness: `C9_theorem` applied to a concrete attempt that plays a
cached rendition. -/
theorem C9_witness :
    "http://h/api/stream/v7" = FeedsAPI.get_stream_url "http://h" "v7" none ∧
    FeedsAPI.get_stream_url "http://h" "v7" none = "http://h" ++ "/api/stream/" ++ "v7" :=
  C9_theorem 9999 0 ⟨["720p"], ["720p"]⟩ (fun _ => false) (fun _ => []) false
    (.success (.json (.list []))) "http://h" "v7" "http://h/api/stream/v7" [] rfl

end Feeds
